import Mathlib

/-!
Shallow embedding of the spy-game session logic from `src/App.tsx`
(OmarioooYT/spy-game).  The React component keeps its whole game state in
`useState` hooks; we collect those hooks into one `GameSession` structure and
translate each event handler into an explicit state-transition function.

Randomness (`Math.random()`) is made explicit: `startGame` receives the index
draws the code would obtain from `Math.random()` (the category draw, the word
draw, and a finite stream of draws consumed by the rejection-sampling loop
that picks spy positions).  The category/word content lives in
`src/constants.ts`, which is not part of the repository snapshot; following
the spec it is treated as an opaque content source and passed in as a
parameter.

Presentation-only effects (confetti, animations, the `newPlayerName` text
input buffer) are out of scope per the spec and are not part of the state.
-/

namespace SpyGame

/-- Phase tag, `type GameState = 'setup' | 'reveal' | 'playing' | 'voting' | 'elimination_result' | 'summary'`
(App.tsx line 31). -/
inductive GameState where
  | setup
  | reveal
  | playing
  | voting
  | elimination_result
  | summary
deriving DecidableEq, Repr

/-- A player's role: `'player' | 'spy'` (App.tsx line 36). -/
inductive Role where
  | player
  | spy
deriving DecidableEq, Repr

/-- Victory outcome, `victoryType: 'players' | 'spies' | null` (App.tsx line 53); `none` models `null`. -/
inductive VictoryType where
  | players
  | spies
deriving DecidableEq, Repr

/-- Roster entry, `interface Player` (App.tsx lines 33-39).  `isEliminated?` is an optional
boolean in TypeScript; `undefined` and `false` are interchangeable in every
use (`!p.isEliminated`, truthiness checks), so it is modelled as `Bool` with
`false` for unset. -/
structure Player where
  id : String
  name : String
  role : Role
  hasSeenRole : Bool
  isEliminated : Bool
deriving DecidableEq, Repr

/-- The `useState` hooks of `App` (App.tsx lines 42-53) gathered into one
session record.  `newPlayerName` is a text-input buffer of the excluded
presentation layer and is omitted. -/
structure GameSession where
  gameState : GameState
  players : List Player
  selectedWord : String
  selectedCategory : String
  currentPlayerIndex : Nat
  isRoleVisible : Bool
  timeLeft : Nat
  isTimerActive : Bool
  spyCount : Nat
  votedPlayer : Option Player
  victoryType : Option VictoryType
deriving DecidableEq, Repr

/-- The initial hook values (App.tsx lines 42-53): phase `setup`, empty
roster, empty word/category, reveal index 0, role hidden, 300 seconds,
timer stopped, spy count 1, no voted player, no victory. -/
def initialSession : GameSession :=
  { gameState := .setup
    players := []
    selectedWord := ""
    selectedCategory := ""
    currentPlayerIndex := 0
    isRoleVisible := false
    timeLeft := 300
    isTimerActive := false
    spyCount := 1
    votedPlayer := none
    victoryType := none }

/-- A category of the content source: `CATEGORIES` entries have a `name` and a
`words` list (used at App.tsx lines 92-93).  `src/constants.ts` is not in the
snapshot; per the spec the content source is an opaque collaborator providing
named categories each with a non-empty word list. -/
structure Category where
  name : String
  words : List String
deriving DecidableEq, Repr

/-- JavaScript `String.prototype.trim`: strip whitespace from both ends. -/
def jsTrim (s : String) : String :=
  String.mk (((s.data.dropWhile Char.isWhitespace).reverse.dropWhile
    Char.isWhitespace).reverse)

/-- Translation of `addPlayer` (App.tsx lines 70-83): no-op if the trimmed name is empty,
otherwise appends a player with the freshly generated id (the
`Math.random().toString(36)` id generation is made explicit as the `id`
argument), role `player`, `hasSeenRole` false, `isEliminated` unset. -/
def addPlayer (name id : String) (s : GameSession) : GameSession :=
  if jsTrim name ≠ "" then
    { s with players := s.players ++
        [{ id := id, name := jsTrim name, role := .player
           hasSeenRole := false, isEliminated := false }] }
  else s

/-- Translation of `removePlayer` (App.tsx lines 85-87). -/
def removePlayer (id : String) (s : GameSession) : GameSession :=
  { s with players := s.players.filter (fun p => p.id ≠ id) }

/-- The rejection-sampling loop of `startGame` (App.tsx lines 96-104):
`while (spyIndices.length < actualSpyCount)` draw a random index and push it
unless already present.  The infinite random stream is modelled by the finite
list `draws` of successive `Math.floor(Math.random() * players.length)`
results; if the finite prefix is exhausted before enough distinct indices are
collected the result is `none` (the real loop would keep drawing). -/
def pickSpyIndices (target : Nat) : List Nat → List Nat → Option (List Nat)
  | acc, [] => if target ≤ acc.length then some acc else none
  | acc, d :: rest =>
    if target ≤ acc.length then some acc
    else if acc.contains d then pickSpyIndices target acc rest
    else pickSpyIndices target (acc ++ [d]) rest

/-- The indexed map of `startGame` (App.tsx lines 106-110):
`players.map((p, i) => ({ ...p, role: spyIndices.includes(i) ? 'spy' : 'player', hasSeenRole: false }))`.
Note the spread `...p` keeps `isEliminated` as it was. -/
def assignRoles (spyIndices : List Nat) : Nat → List Player → List Player
  | _, [] => []
  | i, p :: rest =>
    { p with role := if spyIndices.contains i then Role.spy else Role.player
             hasSeenRole := false } :: assignRoles spyIndices (i + 1) rest

/-- Translation of `startGame` (App.tsx lines 89-119).  Early-returns (silent no-op) when the
roster has fewer than 3 players.  `catDraw`/`wordDraw` are the random indices
into `CATEGORIES` and the chosen category's word list; `draws` feeds the
spy-position rejection sampler.  Missing-content lookups default to the empty
category/word, matching an out-of-range index only on draws the real
`Math.random()` cannot produce. -/
def startGame (categories : List Category) (catDraw wordDraw : Nat)
    (draws : List Nat) (s : GameSession) : GameSession :=
  if s.players.length < 3 then s
  else
    let category := categories.getD catDraw { name := "", words := [] }
    let word := category.words.getD wordDraw ""
    let actualSpyCount := min s.spyCount (s.players.length - 1)
    match pickSpyIndices actualSpyCount [] draws with
    | none => s
    | some spyIndices =>
      { s with
        players := assignRoles spyIndices 0 s.players
        selectedWord := word
        selectedCategory := category.name
        gameState := .reveal
        currentPlayerIndex := 0
        isRoleVisible := false
        timeLeft := 300 }

/-- The in-place update `updatedPlayers[currentPlayerIndex].hasSeenRole = true`
of `nextPlayer` (App.tsx lines 122-124), as a positional list update. -/
def markSeen : Nat → List Player → List Player
  | _, [] => []
  | 0, p :: rest => { p with hasSeenRole := true } :: rest
  | n + 1, p :: rest => p :: markSeen n rest

/-- Translation of `nextPlayer` (App.tsx lines 121-139): marks the current player as having
seen their role, then either advances the reveal index (hiding the role again)
or, after the last player, moves to `playing` and starts the timer (the
confetti call is a presentation effect). -/
def nextPlayer (s : GameSession) : GameSession :=
  let updatedPlayers := markSeen s.currentPlayerIndex s.players
  if s.currentPlayerIndex < s.players.length - 1 then
    { s with players := updatedPlayers
             currentPlayerIndex := s.currentPlayerIndex + 1
             isRoleVisible := false }
  else
    { s with players := updatedPlayers
             gameState := .playing
             isTimerActive := true }

/-- Tap-to-reveal button: `setIsRoleVisible(true)` (App.tsx line 341). -/
def revealRole (s : GameSession) : GameSession :=
  { s with isRoleVisible := true }

/-- The next-player button event (App.tsx lines 371-383): the button carries
`disabled={!isRoleVisible}`, so the advance event only invokes `nextPlayer`
when the current role is visible; otherwise the event is a no-op. -/
def advanceToNextPlayer (s : GameSession) : GameSession :=
  if s.isRoleVisible then nextPlayer s else s

/-- Translation of `handleVote` (App.tsx lines 141-158): stores the clicked `player` object
as `votedPlayer`, marks the roster entry with the same id eliminated, moves to
`elimination_result`, stops the timer (the spy-caught confetti is a
presentation effect).  Note `setVotedPlayer(player)` captures the argument as
it was before the elimination flag is set. -/
def handleVote (player : Player) (s : GameSession) : GameSession :=
  { s with
    votedPlayer := some player
    players := s.players.map (fun p =>
      if p.id == player.id then { p with isEliminated := true } else p)
    gameState := .elimination_result
    isTimerActive := false }

/-- The vote event for a player id.  The voting screen renders one button per
entry of `players.filter(p => !p.isEliminated)` (App.tsx lines 467-478), so a
vote event can only carry a non-eliminated roster member; a vote naming an
eliminated or absent player has no button and is a no-op. -/
def castVote (pid : String) (s : GameSession) : GameSession :=
  match (s.players.filter (fun p => !p.isEliminated)).find? (fun p => p.id == pid) with
  | some p => handleVote p s
  | none => s

/-- The vote button on the playing screen: `setGameState('voting')`
(App.tsx line 422). -/
def openVoting (s : GameSession) : GameSession :=
  { s with gameState := .voting }

/-- Translation of `continueAfterElimination` (App.tsx lines 160-175): recomputes remaining
spies and remaining non-spy players from the roster; players win when no spy
remains, spies win when they have reached parity, otherwise play resumes with
the timer running and the voted player cleared. -/
def continueAfterElimination (s : GameSession) : GameSession :=
  let remainingSpies := s.players.filter (fun p => p.role == Role.spy && !p.isEliminated)
  let remainingPlayers := s.players.filter (fun p => p.role == Role.player && !p.isEliminated)
  if remainingSpies.length = 0 then
    { s with victoryType := some .players, gameState := .summary }
  else if remainingPlayers.length ≤ remainingSpies.length then
    { s with victoryType := some .spies, gameState := .summary }
  else
    { s with gameState := .playing, isTimerActive := true, votedPlayer := none }

/-- Translation of `endGame` (App.tsx lines 177-187): manual early termination. -/
def endGame (s : GameSession) : GameSession :=
  { s with gameState := .summary, isTimerActive := false, victoryType := none }

/-- Translation of `resetGame` (App.tsx lines 189-195): back to `setup`; every player keeps
id and name but has role, `hasSeenRole` and `isEliminated` cleared; timer
stopped, voted player and victory cleared.  Note: `timeLeft`, `selectedWord`
and `selectedCategory` are not touched. -/
def resetGame (s : GameSession) : GameSession :=
  { s with
    gameState := .setup
    players := s.players.map (fun p =>
      { p with role := .player, hasSeenRole := false, isEliminated := false })
    isTimerActive := false
    votedPlayer := none
    victoryType := none }

/-- One one-second timer step as produced by the timer `useEffect`
(App.tsx lines 58-68): while `isTimerActive && timeLeft > 0` the scheduled
interval decrements `timeLeft`; on the re-run of the effect a `timeLeft` of 0
flips `isTimerActive` off. -/
def tick (s : GameSession) : GameSession :=
  if s.isTimerActive ∧ 0 < s.timeLeft then
    let s' := { s with timeLeft := s.timeLeft - 1 }
    if s'.timeLeft = 0 then { s' with isTimerActive := false } else s'
  else if s.timeLeft = 0 then { s with isTimerActive := false }
  else s

/-- Left padding, `secs.toString().padStart(2, '0')` (App.tsx line 200): left-pad with the
pad character up to the target length. -/
def padStart (target : Nat) (c : Char) (str : String) : String :=
  String.mk (List.replicate (target - str.length) c) ++ str

/-- Translation of `formatTime` (App.tsx lines 197-201). -/
def formatTime (seconds : Nat) : String :=
  toString (seconds / 60) ++ ":" ++ padStart 2 '0' (toString (seconds % 60))

/-- Session state obtained just before a first-ever round start on a given
roster with configured spy count `k`: every other hook still holds its initial
value. -/
def freshSession (roster : List Player) (k : Nat) : GameSession :=
  { initialSession with players := roster, spyCount := k }

/-- Concrete content source used by the concrete runs below: one category with
one word.  The spec guarantees every category of the real content source has a
non-empty word list. -/
def exCats : List Category := [{ name := "Food", words := ["apple"] }]

/-- Concrete three-player roster built through `addPlayer`. -/
def s3 : GameSession :=
  addPlayer "c" "id3" (addPlayer "b" "id2" (addPlayer "a" "id1" initialSession))

/-- Concrete round start on `s3`: the single spy draw lands on position 1
(player `"id2"`). -/
def revealStart : GameSession := startGame exCats 0 0 [1] s3

/-- Concrete state after all three players revealed and advanced: phase
`playing`, timer running. -/
def afterReveal : GameSession :=
  advanceToNextPlayer (revealRole (advanceToNextPlayer (revealRole
    (advanceToNextPlayer (revealRole revealStart)))))

/-- Concrete voting screen reached from `afterReveal`. -/
def votingState : GameSession := openVoting afterReveal

/-- Concrete elimination result: the spy `"id2"` is voted out. -/
def elimState : GameSession := castVote "id2" votingState

/-- Concrete summary state reached after one timer second elapsed and the spy
was voted out: `timeLeft` is 299 here. -/
def summary299 : GameSession :=
  continueAfterElimination (castVote "id2" (openVoting (tick afterReveal)))

/-- Concrete setup state reached by resetting after a manually ended round. -/
def setupAfterReset : GameSession := resetGame (endGame afterReveal)

/-- Roster of `s3` with an elimination flag left on player `"id1"`, used to
probe whether `startGame` clears elimination flags. -/
def ex3 : GameSession :=
  { s3 with players :=
      [{ id := "id1", name := "a", role := .player, hasSeenRole := false, isEliminated := true },
       { id := "id2", name := "b", role := .player, hasSeenRole := false, isEliminated := false },
       { id := "id3", name := "c", role := .player, hasSeenRole := false, isEliminated := false }] }

end SpyGame

namespace SpyGame

/-! Helper lemmas about the spy-position sampler and the role assignment. -/

theorem length_assignRoles (l : List Nat) :
    ∀ (xs : List Player) (i : Nat), (assignRoles l i xs).length = xs.length := by
  intro xs
  induction xs with
  | nil => intro i; rfl
  | cons p rest ih => intro i; simp [assignRoles, ih]

theorem countP_assignRoles_spy (l : List Nat) :
    ∀ (xs : List Player) (i : Nat),
      (assignRoles l i xs).countP (fun p => p.role == Role.spy) =
        (List.range' i xs.length).countP (fun j => l.contains j) := by
  intro xs
  induction xs with
  | nil => intro i; simp [assignRoles]
  | cons p rest ih =>
    intro i
    rw [assignRoles, List.length_cons, List.range'_succ, List.countP_cons,
      List.countP_cons, ih i.succ]
    by_cases h : l.contains i <;> simp [h]

theorem countP_assignRoles_player (l : List Nat) (xs : List Player) (i : Nat) :
    (assignRoles l i xs).countP (fun p => p.role == Role.player) =
      xs.length - (assignRoles l i xs).countP (fun p => p.role == Role.spy) := by
  have hsum := List.length_eq_countP_add_countP (fun p => p.role == Role.spy)
    (assignRoles l i xs)
  have hcongr : (assignRoles l i xs).countP (fun p => decide ¬(p.role == Role.spy) = true) =
      (assignRoles l i xs).countP (fun p => p.role == Role.player) := by
    apply List.countP_congr
    intro p _
    cases h : p.role <;> simp [h]
  rw [hcongr, length_assignRoles] at hsum
  omega

theorem countP_range_contains (l : List Nat) (N : Nat) (hnd : l.Nodup)
    (hb : ∀ x ∈ l, x < N) :
    (List.range N).countP (fun j => l.contains j) = l.length := by
  rw [List.countP_eq_length_filter]
  have hperm : List.Perm ((List.range N).filter (fun j => l.contains j)) l := by
    rw [List.perm_ext_iff_of_nodup (List.Nodup.filter _ (List.nodup_range N)) hnd]
    intro a
    simp only [List.mem_filter, List.mem_range, List.elem_iff]
    exact ⟨fun h => h.2, fun h => ⟨hb a h, h⟩⟩
  exact hperm.length_eq

theorem pickSpyIndices_sound {n : Nat} :
    ∀ (draws acc res : List Nat) (target : Nat),
      acc.length ≤ target → acc.Nodup → (∀ x ∈ acc, x < n) →
      (∀ d ∈ draws, d < n) →
      pickSpyIndices target acc draws = some res →
      res.length = target ∧ res.Nodup ∧ ∀ x ∈ res, x < n := by
  intro draws
  induction draws with
  | nil =>
    intro acc res target hlen hnd hbound _ heq
    rw [pickSpyIndices] at heq
    split at heq
    · cases heq
      exact ⟨le_antisymm hlen (by assumption), hnd, hbound⟩
    · cases heq
  | cons d rest ih =>
    intro acc res target hlen hnd hbound hdr heq
    rw [pickSpyIndices] at heq
    split at heq
    · cases heq
      exact ⟨le_antisymm hlen (by assumption), hnd, hbound⟩
    · rename_i hgt
      split at heq
      · exact ih acc res target hlen hnd hbound
          (fun x hx => hdr x (List.mem_cons_of_mem d hx)) heq
      · rename_i hmem
        refine ih (acc ++ [d]) res target ?_ ?_ ?_
          (fun x hx => hdr x (List.mem_cons_of_mem d hx)) heq
        · simp only [List.length_append, List.length_singleton]
          omega
        · simp only [List.nodup_append, List.nodup_singleton, List.disjoint_singleton]
          refine ⟨hnd, trivial, ?_⟩
          simpa [List.elem_iff] using hmem
        · intro x hx
          rcases List.mem_append.mp hx with h | h
          · exact hbound x h
          · cases List.mem_singleton.mp h
            exact hdr _ (List.mem_cons_self _ _)

/-- C1: for a roster of size `N ≥ 3` and configured spy count `k ∈ {1, 2}`,
when `startGame` succeeds (the sampler collects its indices from in-range
draws), exactly `min k (N - 1)` players end up with role `spy`, the remaining
`N - min k (N - 1)` with role `player`, over an unchanged roster length —
so the spies sit at that many distinct roster positions. -/
theorem C1_startGame_spy_count
    (cats : List Category) (catDraw wordDraw : Nat) (draws : List Nat)
    (s : GameSession) (l : List Nat)
    (hN : 3 ≤ s.players.length)
    (hk : s.spyCount = 1 ∨ s.spyCount = 2)
    (hdraws : ∀ d ∈ draws, d < s.players.length)
    (hpick : pickSpyIndices (min s.spyCount (s.players.length - 1)) [] draws = some l) :
    ((startGame cats catDraw wordDraw draws s).players.countP
        (fun p => p.role == Role.spy)) = min s.spyCount (s.players.length - 1) ∧
    ((startGame cats catDraw wordDraw draws s).players.countP
        (fun p => p.role == Role.player)) =
      s.players.length - min s.spyCount (s.players.length - 1) ∧
    (startGame cats catDraw wordDraw draws s).players.length = s.players.length := by
  obtain ⟨hlen, hnd, hbound⟩ :=
    pickSpyIndices_sound draws [] l (min s.spyCount (s.players.length - 1))
      (by simp) (List.nodup_nil) (by simp) hdraws hpick
  have hred : (startGame cats catDraw wordDraw draws s).players =
      assignRoles l 0 s.players := by
    rw [startGame, if_neg (by omega)]
    simp only [hpick]
  rw [hred]
  have hspy : (assignRoles l 0 s.players).countP (fun p => p.role == Role.spy) =
      min s.spyCount (s.players.length - 1) := by
    rw [countP_assignRoles_spy, ← List.range_eq_range',
      countP_range_contains l s.players.length hnd hbound, hlen]
  refine ⟨hspy, ?_, length_assignRoles l s.players 0⟩
  rw [countP_assignRoles_player, hspy]

/-- Witness for C1 at the concrete three-player roster `s3` with spy count 1
and draw stream `[1]`. -/
theorem C1_startGame_spy_count_witness :
    (3 ≤ s3.players.length ∧ (s3.spyCount = 1 ∨ s3.spyCount = 2) ∧
      (∀ d ∈ [1], d < s3.players.length) ∧
      pickSpyIndices (min s3.spyCount (s3.players.length - 1)) [] [1] = some [1]) ∧
    (((startGame exCats 0 0 [1] s3).players.countP
        (fun p => p.role == Role.spy)) = min s3.spyCount (s3.players.length - 1) ∧
      ((startGame exCats 0 0 [1] s3).players.countP
        (fun p => p.role == Role.player)) =
        s3.players.length - min s3.spyCount (s3.players.length - 1) ∧
      (startGame exCats 0 0 [1] s3).players.length = s3.players.length) :=
  ⟨⟨by decide, by decide, by decide, by decide⟩,
    C1_startGame_spy_count exCats 0 0 [1] s3 [1]
      (by decide) (by decide) (by decide) (by decide)⟩

end SpyGame

namespace SpyGame

/-- C10: in phase `setup` with fewer than 3 players, `startGame` rejects the
round start silently: the session is returned unchanged, so the phase stays
`setup` and no field (roster, word, category, reveal index, timer) changes. -/
theorem C10_startGame_insufficient_players
    (cats : List Category) (catDraw wordDraw : Nat) (draws : List Nat)
    (s : GameSession)
    (hphase : s.gameState = GameState.setup)
    (hlen : s.players.length < 3) :
    startGame cats catDraw wordDraw draws s = s ∧
    (startGame cats catDraw wordDraw draws s).gameState = GameState.setup := by
  have h : startGame cats catDraw wordDraw draws s = s := by
    rw [startGame, if_pos hlen]
  exact ⟨h, by rw [h, hphase]⟩

/-- Witness for C10 at the empty initial session. -/
theorem C10_startGame_insufficient_players_witness :
    (initialSession.gameState = GameState.setup ∧ initialSession.players.length < 3) ∧
    (startGame exCats 0 0 [0] initialSession = initialSession ∧
      (startGame exCats 0 0 [0] initialSession).gameState = GameState.setup) :=
  ⟨⟨by decide, by decide⟩,
    C10_startGame_insufficient_players exCats 0 0 [0] initialSession
      (by decide) (by decide)⟩

/-- C4: in the reveal phase, while the current player's role is not visible,
the advance event is a no-op — the session is unchanged, in particular the
reveal index, the phase and every `hasSeenRole` flag. -/
theorem C4_advance_without_reveal_noop (s : GameSession)
    (hphase : s.gameState = GameState.reveal)
    (hvis : s.isRoleVisible = false) :
    advanceToNextPlayer s = s ∧
    (advanceToNextPlayer s).currentPlayerIndex = s.currentPlayerIndex ∧
    (advanceToNextPlayer s).gameState = GameState.reveal ∧
    (advanceToNextPlayer s).players.map (fun p => p.hasSeenRole) =
      s.players.map (fun p => p.hasSeenRole) := by
  have h : advanceToNextPlayer s = s := by
    rw [advanceToNextPlayer, hvis]
    simp
  exact ⟨h, by rw [h], by rw [h, hphase], by rw [h]⟩

/-- Witness for C4 at the freshly started round `revealStart` (role not yet
revealed). -/
theorem C4_advance_without_reveal_noop_witness :
    (revealStart.gameState = GameState.reveal ∧ revealStart.isRoleVisible = false) ∧
    (advanceToNextPlayer revealStart = revealStart ∧
      (advanceToNextPlayer revealStart).currentPlayerIndex = revealStart.currentPlayerIndex ∧
      (advanceToNextPlayer revealStart).gameState = GameState.reveal ∧
      (advanceToNextPlayer revealStart).players.map (fun p => p.hasSeenRole) =
        revealStart.players.map (fun p => p.hasSeenRole)) :=
  ⟨⟨by decide, by decide⟩,
    C4_advance_without_reveal_noop revealStart (by decide) (by decide)⟩

/-- C2: from `elimination_result`, `continueAfterElimination` declares a
players' win when no spy remains, a spies' win when the remaining non-spy
players only reach parity with the remaining spies, and otherwise resumes
play with the timer running and the voted player cleared. -/
theorem C2_continueAfterElimination_outcome (s : GameSession)
    (hphase : s.gameState = GameState.elimination_result) :
    ((s.players.filter (fun p => p.role == Role.spy && !p.isEliminated)).length = 0 →
      (continueAfterElimination s).victoryType = some VictoryType.players ∧
      (continueAfterElimination s).gameState = GameState.summary) ∧
    ((s.players.filter (fun p => p.role == Role.spy && !p.isEliminated)).length ≠ 0 →
      (s.players.filter (fun p => p.role == Role.player && !p.isEliminated)).length ≤
        (s.players.filter (fun p => p.role == Role.spy && !p.isEliminated)).length →
      (continueAfterElimination s).victoryType = some VictoryType.spies ∧
      (continueAfterElimination s).gameState = GameState.summary) ∧
    ((s.players.filter (fun p => p.role == Role.spy && !p.isEliminated)).length ≠ 0 →
      (s.players.filter (fun p => p.role == Role.spy && !p.isEliminated)).length <
        (s.players.filter (fun p => p.role == Role.player && !p.isEliminated)).length →
      (continueAfterElimination s).gameState = GameState.playing ∧
      (continueAfterElimination s).isTimerActive = true ∧
      (continueAfterElimination s).votedPlayer = none) := by
  refine ⟨fun h0 => ?_, fun hne hle => ?_, fun hne hlt => ?_⟩
  · rw [continueAfterElimination]
    simp only [h0]
    simp
  · rw [continueAfterElimination]
    simp only [if_neg hne, if_pos hle]
    simp
  · rw [continueAfterElimination]
    simp only [if_neg hne, if_neg (not_le.mpr hlt)]
    simp

/-- Witness for C2 at the concrete elimination result `elimState` (the single
spy was voted out, so the players win). -/
theorem C2_continueAfterElimination_outcome_witness :
    (elimState.gameState = GameState.elimination_result) ∧
    (((elimState.players.filter (fun p => p.role == Role.spy && !p.isEliminated)).length = 0 →
      (continueAfterElimination elimState).victoryType = some VictoryType.players ∧
      (continueAfterElimination elimState).gameState = GameState.summary) ∧
    ((elimState.players.filter (fun p => p.role == Role.spy && !p.isEliminated)).length ≠ 0 →
      (elimState.players.filter (fun p => p.role == Role.player && !p.isEliminated)).length ≤
        (elimState.players.filter (fun p => p.role == Role.spy && !p.isEliminated)).length →
      (continueAfterElimination elimState).victoryType = some VictoryType.spies ∧
      (continueAfterElimination elimState).gameState = GameState.summary) ∧
    ((elimState.players.filter (fun p => p.role == Role.spy && !p.isEliminated)).length ≠ 0 →
      (elimState.players.filter (fun p => p.role == Role.spy && !p.isEliminated)).length <
        (elimState.players.filter (fun p => p.role == Role.player && !p.isEliminated)).length →
      (continueAfterElimination elimState).gameState = GameState.playing ∧
      (continueAfterElimination elimState).isTimerActive = true ∧
      (continueAfterElimination elimState).votedPlayer = none)) :=
  ⟨by decide, C2_continueAfterElimination_outcome elimState (by decide)⟩

/-- C6: in phase `voting`, a vote event naming an already-eliminated or
absent player has no button on the voting screen and is a no-op: the session
is unchanged — no elimination flag changes, the phase stays `voting`, and the
voted player is not set. -/
theorem C6_castVote_invalid_noop (s : GameSession) (pid : String)
    (hphase : s.gameState = GameState.voting)
    (helim : ∀ p ∈ s.players, p.id = pid → p.isEliminated = true) :
    castVote pid s = s ∧
    (castVote pid s).gameState = GameState.voting ∧
    (castVote pid s).players.map (fun p => p.isEliminated) =
      s.players.map (fun p => p.isEliminated) ∧
    (castVote pid s).votedPlayer = s.votedPlayer := by
  have hfind : (s.players.filter (fun p => !p.isEliminated)).find?
      (fun p => p.id == pid) = none := by
    rw [List.find?_eq_none]
    intro p hp hbeq
    rw [List.mem_filter] at hp
    have hid : p.id = pid := by simpa using hbeq
    have := helim p hp.1 hid
    rw [this] at hp
    simp at hp
  have h : castVote pid s = s := by
    rw [castVote, hfind]
  exact ⟨h, by rw [h, hphase], by rw [h], by rw [h]⟩

/-- Witness for C6 at the concrete voting screen `votingState` and an id
absent from the roster. -/
theorem C6_castVote_invalid_noop_witness :
    (votingState.gameState = GameState.voting ∧
      (∀ p ∈ votingState.players, p.id = "zzz" → p.isEliminated = true)) ∧
    (castVote "zzz" votingState = votingState ∧
      (castVote "zzz" votingState).gameState = GameState.voting ∧
      (castVote "zzz" votingState).players.map (fun p => p.isEliminated) =
        votingState.players.map (fun p => p.isEliminated) ∧
      (castVote "zzz" votingState).votedPlayer = votingState.votedPlayer) :=
  ⟨⟨by decide, by decide⟩,
    C6_castVote_invalid_noop votingState "zzz" (by decide) (by decide)⟩

end SpyGame

namespace SpyGame

theorem hasSeenRole_assignRoles (l : List Nat) :
    ∀ (xs : List Player) (i : Nat), ∀ p ∈ assignRoles l i xs, p.hasSeenRole = false := by
  intro xs
  induction xs with
  | nil => intro i p hp; cases hp
  | cons q rest ih =>
    intro i p hp
    rcases hp with _ | hp
    · rfl
    · exact ih (i + 1) p (by assumption)

theorem isEliminated_assignRoles (l : List Nat) :
    ∀ (xs : List Player) (i : Nat),
      (assignRoles l i xs).map (fun p => p.isEliminated) =
        xs.map (fun p => p.isEliminated) := by
  intro xs
  induction xs with
  | nil => intro i; rfl
  | cons q rest ih =>
    intro i
    simp [assignRoles, ih (i + 1)]

theorem isEliminated_assignRoles_false (l : List Nat) :
    ∀ (xs : List Player) (i : Nat), (∀ q ∈ xs, q.isEliminated = false) →
      ∀ p ∈ assignRoles l i xs, p.isEliminated = false := by
  intro xs
  induction xs with
  | nil => intro i _ p hp; cases hp
  | cons q rest ih =>
    intro i hall p hp
    rcases hp with _ | hp
    · exact hall q (List.mem_cons_self q rest)
    · exact ih (i + 1) (fun r hr => hall r (List.mem_cons_of_mem q hr)) p (by assumption)

theorem startGame_reduce
    (cats : List Category) (catDraw wordDraw : Nat) (draws : List Nat)
    (s : GameSession) (l : List Nat)
    (hN : 3 ≤ s.players.length)
    (hpick : pickSpyIndices (min s.spyCount (s.players.length - 1)) [] draws = some l) :
    startGame cats catDraw wordDraw draws s =
      { s with
        players := assignRoles l 0 s.players
        selectedWord := (cats.getD catDraw { name := "", words := [] }).words.getD wordDraw ""
        selectedCategory := (cats.getD catDraw { name := "", words := [] }).name
        gameState := GameState.reveal
        currentPlayerIndex := 0
        isRoleVisible := false
        timeLeft := 300 } := by
  rw [startGame, if_neg (by omega)]
  simp only [hpick]

/-- C3 counterexample: `startGame` does not clear elimination flags.  On the
roster `ex3`, in which player `"id1"` still carries `isEliminated = true`, the
round starts (phase `reveal`) with that flag still set, contradicting the
claim that `startRound()` resets every player's `isEliminated` to false. -/
theorem C3_startGame_keeps_isEliminated_cex :
    (startGame exCats 0 0 [1] ex3).gameState = GameState.reveal ∧
    ¬ (∀ p ∈ (startGame exCats 0 0 [1] ex3).players, p.isEliminated = false) := by
  constructor
  · decide
  · decide

/-- C3 amended: a successful `startGame` resets `hasSeenRole` to false for
every player but leaves each player's `isEliminated` flag exactly as it was;
elimination flags are instead cleared by `resetGame` — the only transition
back to `setup` — so a round started after a reset still begins with no
player marked eliminated. -/
theorem C3_startGame_reset_amended
    (cats : List Category) (catDraw wordDraw : Nat) (draws : List Nat)
    (s : GameSession) (l : List Nat)
    (hN : 3 ≤ s.players.length)
    (hpick : pickSpyIndices (min s.spyCount (s.players.length - 1)) [] draws = some l) :
    (∀ p ∈ (startGame cats catDraw wordDraw draws s).players, p.hasSeenRole = false) ∧
    ((startGame cats catDraw wordDraw draws s).players.map (fun p => p.isEliminated) =
      s.players.map (fun p => p.isEliminated)) ∧
    (∀ p ∈ (startGame cats catDraw wordDraw draws (resetGame s)).players,
      p.isEliminated = false ∧ p.hasSeenRole = false) := by
  have hred := startGame_reduce cats catDraw wordDraw draws s l hN hpick
  have hl : (resetGame s).players.length = s.players.length := by
    simp [resetGame]
  have hN' : 3 ≤ (resetGame s).players.length := by rw [hl]; exact hN
  have hpick' : pickSpyIndices (min (resetGame s).spyCount
      ((resetGame s).players.length - 1)) [] draws = some l := by
    rw [hl]; exact hpick
  have hred' := startGame_reduce cats catDraw wordDraw draws (resetGame s) l hN' hpick'
  refine ⟨?_, ?_, ?_⟩
  · rw [hred]
    exact hasSeenRole_assignRoles l s.players 0
  · rw [hred]
    exact isEliminated_assignRoles l s.players 0
  · rw [hred']
    intro p hp
    refine ⟨?_, hasSeenRole_assignRoles l (resetGame s).players 0 p hp⟩
    refine isEliminated_assignRoles_false l (resetGame s).players 0 ?_ p hp
    intro q hq
    simp only [resetGame, List.mem_map] at hq
    obtain ⟨q', _, rfl⟩ := hq
    rfl

/-- Witness for C3 amended at the concrete roster `ex3` (one stale
elimination flag) with draw stream `[1]`. -/
theorem C3_startGame_reset_amended_witness :
    (3 ≤ ex3.players.length ∧
      pickSpyIndices (min ex3.spyCount (ex3.players.length - 1)) [] [1] = some [1]) ∧
    ((∀ p ∈ (startGame exCats 0 0 [1] ex3).players, p.hasSeenRole = false) ∧
      ((startGame exCats 0 0 [1] ex3).players.map (fun p => p.isEliminated) =
        ex3.players.map (fun p => p.isEliminated)) ∧
      (∀ p ∈ (startGame exCats 0 0 [1] (resetGame ex3)).players,
        p.isEliminated = false ∧ p.hasSeenRole = false)) :=
  ⟨⟨by decide, by decide⟩,
    C3_startGame_reset_amended exCats 0 0 [1] ex3 [1] (by decide) (by decide)⟩

end SpyGame

namespace SpyGame

/-- C5 counterexample: `resetGame` does not restore the remaining time to its
initial value 300.  In the reachable summary state `summary299` one timer
second has elapsed (`timeLeft = 299`), and after `resetGame` the remaining
time is still 299. -/
theorem C5_resetGame_keeps_timeLeft_cex :
    summary299.gameState = GameState.summary ∧
    summary299.timeLeft = 299 ∧
    (resetGame summary299).timeLeft = 299 ∧
    (resetGame summary299).timeLeft ≠ 300 := by
  refine ⟨by decide, by decide, by decide, by decide⟩

/-- C5 amended: `resetGame` preserves every roster entry's id and name,
clears all roles, reveal flags and elimination flags, stops the timer and
clears the outcome and the voted player — but leaves the remaining time (and
the previous word/category) unchanged.  Because `startGame` itself
reinitialises the remaining time to 300 along with word, category, reveal
index and visibility, `resetGame` followed by a successful `startGame` still
produces exactly the state a first-ever `startGame` on that roster (with the
same spy count and the same random draws) would produce. -/
theorem C5_resetGame_roundtrip_amended
    (cats : List Category) (catDraw wordDraw : Nat) (draws : List Nat)
    (s : GameSession) (l : List Nat)
    (hN : 3 ≤ s.players.length)
    (hpick : pickSpyIndices (min s.spyCount (s.players.length - 1)) [] draws = some l) :
    (resetGame s).players.map (fun p => (p.id, p.name)) =
      s.players.map (fun p => (p.id, p.name)) ∧
    (∀ p ∈ (resetGame s).players,
      p.role = Role.player ∧ p.hasSeenRole = false ∧ p.isEliminated = false) ∧
    (resetGame s).isTimerActive = false ∧
    (resetGame s).votedPlayer = none ∧
    (resetGame s).victoryType = none ∧
    (resetGame s).gameState = GameState.setup ∧
    (resetGame s).timeLeft = s.timeLeft ∧
    startGame cats catDraw wordDraw draws (resetGame s) =
      startGame cats catDraw wordDraw draws
        (freshSession ((resetGame s).players) s.spyCount) := by
  have hl : (resetGame s).players.length = s.players.length := by
    simp [resetGame]
  have hN' : 3 ≤ (resetGame s).players.length := by rw [hl]; exact hN
  have hpick' : pickSpyIndices (min (resetGame s).spyCount
      ((resetGame s).players.length - 1)) [] draws = some l := by
    rw [hl]; exact hpick
  have hNf : 3 ≤ (freshSession ((resetGame s).players) s.spyCount).players.length := hN'
  have hpickf : pickSpyIndices
      (min (freshSession ((resetGame s).players) s.spyCount).spyCount
        ((freshSession ((resetGame s).players) s.spyCount).players.length - 1))
      [] draws = some l := hpick'
  refine ⟨?_, ?_, rfl, rfl, rfl, rfl, rfl, ?_⟩
  · simp [resetGame]
  · intro p hp
    simp only [resetGame, List.mem_map] at hp
    obtain ⟨q, _, rfl⟩ := hp
    exact ⟨rfl, rfl, rfl⟩
  · rw [startGame_reduce cats catDraw wordDraw draws (resetGame s) l hN' hpick',
      startGame_reduce cats catDraw wordDraw draws
        (freshSession ((resetGame s).players) s.spyCount) l hNf hpickf]
    rfl

/-- Witness for C5 amended at the concrete summary state `summary299`. -/
theorem C5_resetGame_roundtrip_amended_witness :
    (3 ≤ summary299.players.length ∧
      pickSpyIndices (min summary299.spyCount (summary299.players.length - 1)) []
        [1] = some [1]) ∧
    ((resetGame summary299).players.map (fun p => (p.id, p.name)) =
      summary299.players.map (fun p => (p.id, p.name)) ∧
    (∀ p ∈ (resetGame summary299).players,
      p.role = Role.player ∧ p.hasSeenRole = false ∧ p.isEliminated = false) ∧
    (resetGame summary299).isTimerActive = false ∧
    (resetGame summary299).votedPlayer = none ∧
    (resetGame summary299).victoryType = none ∧
    (resetGame summary299).gameState = GameState.setup ∧
    (resetGame summary299).timeLeft = summary299.timeLeft ∧
    startGame exCats 0 0 [1] (resetGame summary299) =
      startGame exCats 0 0 [1]
        (freshSession ((resetGame summary299).players) summary299.spyCount)) :=
  ⟨⟨by decide, by decide⟩,
    C5_resetGame_roundtrip_amended exCats 0 0 [1] summary299 [1]
      (by decide) (by decide)⟩

end SpyGame

namespace SpyGame

/-- C7 counterexample: the secret word is not empty in every `setup` state.
After a complete round (started with the word `"apple"`) is ended and reset,
the session is back in phase `setup` but `selectedWord` still holds
`"apple"`, because `resetGame` never clears it. -/
theorem C7_selectedWord_survives_reset_cex :
    setupAfterReset.gameState = GameState.setup ∧
    setupAfterReset.selectedWord = "apple" ∧
    setupAfterReset.selectedWord ≠ "" := by
  refine ⟨by decide, by decide, by decide⟩

/-- C7 amended: the secret word is empty in the initial state, before any
round has started; but `resetGame` leaves `selectedWord` (and
`selectedCategory`) untouched, so after the first completed round the
`setup` phase retains the previous round's word rather than the empty
string. -/
theorem C7_selectedWord_amended :
    initialSession.selectedWord = "" ∧
    (∀ s : GameSession, (resetGame s).selectedWord = s.selectedWord ∧
      (resetGame s).selectedCategory = s.selectedCategory ∧
      (resetGame s).gameState = GameState.setup) :=
  ⟨rfl, fun _ => ⟨rfl, rfl, rfl⟩⟩

/-- C8 counterexample: the stored last-voted player drifts from the roster.
Immediately after the spy `"id2"` is voted out, the roster entry `"id2"` has
`isEliminated = true` while the stored `votedPlayer` snapshot still carries
`isEliminated = false` — `handleVote` records the pre-elimination object
instead of recomputing the view from the roster. -/
theorem C8_votedPlayer_stale_cex :
    elimState.gameState = GameState.elimination_result ∧
    elimState.votedPlayer.map (fun p => p.id) = some "id2" ∧
    elimState.votedPlayer.map (fun p => p.isEliminated) = some false ∧
    elimState.players.map (fun p => (p.id, p.isEliminated)) =
      [("id1", false), ("id2", true), ("id3", false)] := by
  refine ⟨by decide, by decide, by decide, by decide⟩

/-- C8 amended: immediately after a vote for a present, non-eliminated player
`p`, the stored last-voted player is the pre-vote snapshot of `p`: it still
has `isEliminated = false`, while every roster entry with the same id has
`isEliminated = true` — the stored view disagrees with the roster on the
elimination flag (it agrees on the fields the vote does not change). -/
theorem C8_votedPlayer_amended (s : GameSession) (pid : String) (p : Player)
    (hfind : (s.players.filter (fun q => !q.isEliminated)).find?
      (fun q => q.id == pid) = some p) :
    (castVote pid s).votedPlayer = some p ∧
    p.isEliminated = false ∧
    (∀ q ∈ (castVote pid s).players, q.id = p.id → q.isEliminated = true) := by
  have hm := List.mem_of_find?_eq_some hfind
  rw [List.mem_filter] at hm
  have helim : p.isEliminated = false := by simpa using hm.2
  have hcv : castVote pid s = handleVote p s := by rw [castVote, hfind]
  refine ⟨by rw [hcv]; rfl, helim, ?_⟩
  intro q hq hid
  rw [hcv] at hq
  simp only [handleVote, List.mem_map] at hq
  obtain ⟨q', _, heq⟩ := hq
  by_cases h : (q'.id == p.id) = true
  · rw [if_pos h] at heq
    rw [← heq]
  · rw [if_neg h] at heq
    subst heq
    exact absurd (by simp [hid]) h

/-- Witness for C8 amended at the concrete voting screen `votingState`,
voting for the spy `"id2"`. -/
theorem C8_votedPlayer_amended_witness :
    ((votingState.players.filter (fun q => !q.isEliminated)).find?
      (fun q => q.id == "id2") =
        some { id := "id2", name := "b", role := Role.spy
               hasSeenRole := true, isEliminated := false }) ∧
    ((castVote "id2" votingState).votedPlayer =
        some { id := "id2", name := "b", role := Role.spy
               hasSeenRole := true, isEliminated := false } ∧
      ({ id := "id2", name := "b", role := Role.spy
         hasSeenRole := true, isEliminated := false } : Player).isEliminated = false ∧
      (∀ q ∈ (castVote "id2" votingState).players,
        q.id = ({ id := "id2", name := "b", role := Role.spy
                  hasSeenRole := true, isEliminated := false } : Player).id →
          q.isEliminated = true)) :=
  ⟨by decide,
    C8_votedPlayer_amended votingState "id2"
      { id := "id2", name := "b", role := Role.spy
        hasSeenRole := true, isEliminated := false } (by decide)⟩

end SpyGame

namespace SpyGame

theorem tick_decrement (s : GameSession) (ha : s.isTimerActive = true)
    (ht : 0 < s.timeLeft) : (tick s).timeLeft = s.timeLeft - 1 := by
  rw [tick]
  rw [if_pos ⟨by rw [ha], ht⟩]
  by_cases h : s.timeLeft - 1 = 0
  · rw [if_pos h]
  · rw [if_neg h]

theorem tick_countdown : ∀ (k : Nat) (s : GameSession),
    s.isTimerActive = true → s.timeLeft = k + 1 →
    tick^[k + 1] s = { s with timeLeft := 0, isTimerActive := false } := by
  intro k
  induction k with
  | zero =>
    intro s ha ht
    rw [Function.iterate_one, tick, if_pos ⟨by rw [ha], by omega⟩]
    simp [ht]
  | succ k ih =>
    intro s ha ht
    rw [Function.iterate_succ_apply]
    have hstep : tick s = { s with timeLeft := k + 1 } := by
      rw [tick, if_pos ⟨by rw [ha], by omega⟩]
      simp [ht]
    rw [hstep]
    exact ih { s with timeLeft := k + 1 } ha rfl

theorem padStart_toString_mod60 : ∀ m, m < 60 →
    padStart 2 '0' (toString m) =
      if m < 10 then "0" ++ toString m else toString m := by
  decide

/-- C9: with the timer running in phase `playing` at 300 seconds, every tick
decrements the remaining time by exactly 1; after 300 ticks the remaining
time is 0 and the timer flag has auto-flipped to false with the phase still
`playing`; and the formatted time is the minutes, a colon, and the
seconds-within-minute zero-padded to two digits — `"0:00"` at zero. -/
theorem C9_timer_countdown_format (s : GameSession)
    (ha : s.isTimerActive = true) (ht : s.timeLeft = 300)
    (hphase : s.gameState = GameState.playing) :
    (∀ s' : GameSession, s'.isTimerActive = true → 0 < s'.timeLeft →
      (tick s').timeLeft = s'.timeLeft - 1) ∧
    (tick^[300] s).timeLeft = 0 ∧
    (tick^[300] s).isTimerActive = false ∧
    (tick^[300] s).gameState = GameState.playing ∧
    (∀ n : Nat, formatTime n = toString (n / 60) ++ ":" ++
      (if n % 60 < 10 then "0" ++ toString (n % 60) else toString (n % 60))) ∧
    formatTime 0 = "0:00" := by
  have h300 : tick^[300] s = { s with timeLeft := 0, isTimerActive := false } :=
    tick_countdown 299 s ha ht
  refine ⟨tick_decrement, ?_, ?_, ?_, ?_, by decide⟩
  · rw [h300]
  · rw [h300]
  · rw [h300]
    exact hphase
  · intro n
    rw [formatTime, padStart_toString_mod60 (n % 60) (Nat.mod_lt n (by norm_num))]

/-- Witness for C9 at the concrete playing state `afterReveal` (timer just
started at 300). -/
theorem C9_timer_countdown_format_witness :
    (afterReveal.isTimerActive = true ∧ afterReveal.timeLeft = 300 ∧
      afterReveal.gameState = GameState.playing) ∧
    ((∀ s' : GameSession, s'.isTimerActive = true → 0 < s'.timeLeft →
      (tick s').timeLeft = s'.timeLeft - 1) ∧
    (tick^[300] afterReveal).timeLeft = 0 ∧
    (tick^[300] afterReveal).isTimerActive = false ∧
    (tick^[300] afterReveal).gameState = GameState.playing ∧
    (∀ n : Nat, formatTime n = toString (n / 60) ++ ":" ++
      (if n % 60 < 10 then "0" ++ toString (n % 60) else toString (n % 60))) ∧
    formatTime 0 = "0:00") :=
  ⟨⟨by decide, by decide, by decide⟩,
    C9_timer_countdown_format afterReveal (by decide) (by decide) (by decide)⟩

end SpyGame
